import Mathlib

/-!
Verification of the vercel-ai-sql-backend server (src/server.js, src/db.js).

The development shallowly embeds the request handlers of the Express app in
Lean.  JavaScript strings are modelled as Lean `String`; the handful of
JavaScript string primitives used by the server (`split`, `trim`,
`toLowerCase`, `toUpperCase`, `includes`, `Array.join`, template literals)
are re-implemented below as structurally recursive functions over `List Char`
so that every definition evaluates inside the kernel.

JavaScript truthiness conventions used throughout the embedding: a missing
or falsy string field is represented by the empty string (the handlers only
ever test such fields for truthiness, so absent and empty are observationally
identical); a field that may be absent or a non-string shape is an `Option`.
-/

namespace SqlBackend

/-- Boolean test that the first character list starts the second, used to
implement the JavaScript string scanning primitives. -/
def leadsWith : List Char → List Char → Bool
  | [], _ => true
  | _ :: _, [] => false
  | a :: as, b :: bs => a == b && leadsWith as bs

/-- Boolean substring-occurrence test on character lists: JavaScript
`String.prototype.includes`. -/
def containsL (needle : List Char) : List Char → Bool
  | [] => needle.isEmpty
  | c :: cs => leadsWith needle (c :: cs) || containsL needle cs

/-- JavaScript `s.includes(needle)`. -/
def jsIncludes (s needle : String) : Bool :=
  containsL needle.data s.data

/-- Fuel-driven worker for JavaScript `String.prototype.split` with a
non-empty separator: leftmost, non-overlapping occurrences. -/
def splitGo (sep : List Char) : Nat → List Char → List Char → List (List Char)
  | 0, acc, rest => [acc.reverse ++ rest]
  | _ + 1, acc, [] => [acc.reverse]
  | fuel + 1, acc, c :: cs =>
    if leadsWith sep (c :: cs) then
      acc.reverse :: splitGo sep fuel [] (List.drop sep.length (c :: cs))
    else
      splitGo sep fuel (c :: acc) cs

/-- JavaScript `s.split(sep)`.  An empty separator splits into single
characters, as in JavaScript; the server only ever splits on the three
non-empty section markers and the code-fence strings. -/
def jsSplit (sep s : String) : List String :=
  if sep.data = [] then s.data.map fun c => String.mk [c]
  else (splitGo sep.data (s.data.length + 1) [] s.data).map String.mk

/-- Drop leading JavaScript whitespace from a character list. -/
def dropWhileWs : List Char → List Char
  | [] => []
  | c :: cs => if c.isWhitespace then dropWhileWs cs else c :: cs

/-- JavaScript `s.trim()`: whitespace removed from both ends. -/
def jsTrim (s : String) : String :=
  String.mk ((dropWhileWs (dropWhileWs s.data).reverse).reverse)

/-- JavaScript `s.toLowerCase()` on the ASCII strings the server handles. -/
def jsToLower (s : String) : String :=
  String.mk (s.data.map Char.toLower)

/-- JavaScript `s.toUpperCase()` on the ASCII strings the server handles. -/
def jsToUpper (s : String) : String :=
  String.mk (s.data.map Char.toUpper)

/-- JavaScript `Array.prototype.join(sep)` on an array of strings. -/
def jsJoin (sep : String) : List String → String
  | [] => ""
  | [p] => p
  | p :: rest => p ++ sep ++ jsJoin sep rest

/-- The single-quote character, used in the "Table not found" message of
the ask handler (src/server.js line 292). -/
def sq : String := String.mk [Char.ofNat 39]

/-! ## Dynamic Query Builder — the `/crud` handler (src/server.js 509-586)

The handler destructures `{operation, tableName, data, where}` from the
request body, validates, and builds one SQL template plus one flat
positional parameter array.  In the `mysql2` driver the array entries are
consumed left to right by the `??` (identifier) and `?` (value)
placeholders of the template; the embedding tags each entry with the kind
of placeholder position it feeds: `Sum.inl` for identifiers (the table
name and column names), `Sum.inr` for data values. -/

/-- Outcome of the `/crud` handler before the store call: either an early
`res.status(400)` return (no `db.query` issued) or the built statement and
parameter array handed to `db.query`. -/
inductive CrudResult (α : Type) where
  | validationError (msg : String)
  | query (sql : String) (params : List (String ⊕ α))
deriving DecidableEq

/-- True exactly on the early-return (no store call) outcome. -/
def CrudResult.isError {α : Type} : CrudResult α → Bool
  | .validationError _ => true
  | .query _ _ => false

/-- The SQL template of a built statement, `none` on validation failure. -/
def CrudResult.sqlOf {α : Type} : CrudResult α → Option String
  | .validationError _ => none
  | .query s _ => some s

/-- The data values carried by a parameter array, in order. -/
def valueParams {α : Type} (ps : List (String ⊕ α)) : List α :=
  ps.filterMap fun p => match p with
    | Sum.inl _ => none
    | Sum.inr v => some v

/-- The `/crud` handler up to the `db.query` call (src/server.js 509-567).
`data` is `none` when the field is absent; `whereClause = ""` covers both
an absent and an empty `where` (the code only tests `!where`). -/
def crudBuild {α : Type} (operation tableName : String)
    (data : Option (List (String × α))) (whereClause : String) : CrudResult α :=
  if operation = "" ∨ tableName = "" then
    .validationError "Operation and table name required"
  else
    let op := jsToUpper operation
    if op = "INSERT" then
      match data with
      | none => .validationError "Data required for INSERT"
      | some d =>
        if d.length = 0 then .validationError "Data required for INSERT"
        else
          let columns := d.map Prod.fst
          let values := d.map Prod.snd
          let placeholders := jsJoin "," (columns.map fun _ => "?")
          .query ("INSERT INTO ?? (" ++ jsJoin "," (columns.map fun _ => "??")
                    ++ ") VALUES (" ++ placeholders ++ ")")
            (Sum.inl tableName :: (columns.map Sum.inl ++ values.map Sum.inr))
    else if op = "UPDATE" then
      match data with
      | none => .validationError "Data required for UPDATE"
      | some d =>
        if d.length = 0 then .validationError "Data required for UPDATE"
        else if whereClause = "" then
          .validationError "WHERE clause required for UPDATE"
        else
          let setClauses := d.map fun _ => "?? = ?"
          .query ("UPDATE ?? SET " ++ jsJoin ", " setClauses
                    ++ " WHERE " ++ whereClause)
            (Sum.inl tableName :: d.flatMap fun p => [Sum.inl p.1, Sum.inr p.2])
    else if op = "DELETE" then
      if whereClause = "" then
        .validationError "WHERE clause required for DELETE"
      else
        .query ("DELETE FROM ?? WHERE " ++ whereClause) [Sum.inl tableName]
    else if op = "TRUNCATE" then
      .query "TRUNCATE TABLE ??" [Sum.inl tableName]
    else if op = "DROP" then
      .query "DROP TABLE IF EXISTS ??" [Sum.inl tableName]
    else
      .validationError ("Unsupported operation: " ++ operation)

/-! ## `/upload` table-name pre-check (src/server.js 182-191) -/

/-- The regular expression test of the upload handler,
`/^[a-zA-Z0-9_]+$/.test(tableName)`: non-empty, every character a letter,
digit or underscore. -/
def isValidTableName (s : String) : Bool :=
  !s.data.isEmpty && s.data.all fun c => c.isAlphanum || c == '_'

/-- Outcome of the upload handler validation head, before any store call. -/
inductive UploadCheck where
  | missingFields
  | invalidName
  | proceed
deriving DecidableEq

/-- The `/upload` handler up to (and including) the table-name pattern
check (src/server.js 182-191); `hasFile` reflects `req.file?.path`
truthiness. -/
def uploadPrecheck (tableName : String) (hasFile : Bool) : UploadCheck :=
  if tableName = "" ∨ hasFile = false then .missingFields
  else if isValidTableName tableName = false then .invalidName
  else .proceed

/-! ## NL-to-SQL Translator — response parsing (src/server.js 340-353) -/

/-- The parsed three-field reply of the model (`TranslationResult` of the
data model). -/
structure TranslationResult where
  sql : String
  explanation : String
  warning : String
deriving DecidableEq

/-- JavaScript `x || d` on an optionally-undefined string `x`: the default
is taken when `x` is `undefined` or the (falsy) empty string. -/
def jsOrDefault (o : Option String) (d : String) : String :=
  match o with
  | none => d
  | some s => if s = "" then d else s

/-- JavaScript `parts[0]` on a split result; `split` always returns at
least one part, so the default is never consulted. -/
def jsFirst (parts : List String) : String :=
  parts.headD ""

/-- Global regex replace of `pat` followed by one optional newline with the
empty string, e.g. the fence strippers `/\x60\x60\x60sql\n?/g` and
`/\x60\x60\x60\n?/g` of src/server.js line 346: every non-overlapping
occurrence of `pat` is removed together with one directly following
newline. -/
def replaceOptNewline (pat s : String) : String :=
  match jsSplit pat s with
  | [] => ""
  | h :: t =>
    h ++ jsJoin "" (t.map fun seg =>
      match seg.data with
      | '\n' :: r => String.mk r
      | _ => seg)

/-- Response parsing of the ask handler (src/server.js 340-353): tolerant
split-based extraction of the three sections, with per-field defaults and
code-fence stripping on the SQL field. -/
def parseResponse (content : String) : TranslationResult :=
  let sqlPart := ((jsSplit "SQL_QUERY:" content).get? 1).map fun s1 =>
    jsTrim (jsFirst (jsSplit "WARNING:"
      (jsFirst (jsSplit "BUSINESS_EXPLANATION:" s1))))
  let sql0 := jsOrDefault sqlPart ""
  let sql := jsTrim (replaceOptNewline "```" (replaceOptNewline "```sql" sql0))
  let explanationPart := ((jsSplit "BUSINESS_EXPLANATION:" content).get? 1).map
    fun s1 => jsTrim (jsFirst (jsSplit "WARNING:" s1))
  let explanation := jsOrDefault explanationPart "No explanation provided"
  let warningPart := ((jsSplit "WARNING:" content).get? 1).map jsTrim
  let warning := jsOrDefault warningPart ""
  { sql := sql, explanation := explanation, warning := warning }

/-! ## Destructive-Operation Classifier (src/server.js 355-362) -/

/-- The fixed cautionary message attached to unwarned destructive SQL. -/
def destructiveWarning : String :=
  "⚠️ This query will modify or delete data. Review carefully before executing."

/-- The destructive-SQL heuristic: case-insensitive substring match of the
generated SQL against the four mutation keywords (src/server.js 356-358). -/
def isDestructive (sql : String) : Bool :=
  let sqlLower := jsToLower sql
  jsIncludes sqlLower "delete" || jsIncludes sqlLower "drop" ||
    jsIncludes sqlLower "truncate" || jsIncludes sqlLower "update"

/-- The classifier step of the ask handler (src/server.js 360-362): attach
the fixed message exactly when the SQL is flagged and the prior warning is
falsy (empty). -/
def classifyWarning (sql warning : String) : String :=
  if isDestructive sql && (warning == "") then destructiveWarning else warning

/-! ## Schema Catalog Reader and Formatter (src/server.js 48-67) -/

/-- One row of the catalog query of `getSchema`. -/
structure ColumnDescriptor where
  COLUMN_NAME : String
  DATA_TYPE : String
deriving DecidableEq

/-- `formatSchema` (src/server.js 63-67). -/
def formatSchema (schema : List ColumnDescriptor) (tableName : String) : String :=
  tableName ++ "(" ++
    jsJoin ", " (schema.map fun col => col.COLUMN_NAME ++ " " ++ col.DATA_TYPE)
    ++ ")"

/-! ## The `/ask` handler (src/server.js 271-387) -/

/-- The schema-text building loop of the ask handler (src/server.js
290-295): `tableList.map((table, idx) => ...)` walking the table list in
parallel with the awaited `schemasResults`; a missing or empty schema for
the current table throws, aborting the whole map. -/
def buildSchemasList : List String → List (List ColumnDescriptor) →
    Except String (List String)
  | [], _ => .ok []
  | table :: _, [] => .error ("Table " ++ sq ++ table ++ sq ++ " not found")
  | table :: rest, schema :: restResults =>
    if schema.length = 0 then
      .error ("Table " ++ sq ++ table ++ sq ++ " not found")
    else
      (buildSchemasList rest restResults).map fun l =>
        formatSchema schema table :: l

/-- `schemasText` of the ask handler: the formatted per-table schemas
joined by newlines, or the thrown not-found error. -/
def buildSchemasText (tableList : List String)
    (schemasResults : List (List ColumnDescriptor)) : Except String String :=
  (buildSchemasList tableList schemasResults).map (jsJoin "\n")

/-- The prompt template literal of the ask handler (src/server.js
297-326). -/
def promptText (schemasText question : String) : String :=
  "\nYou are an expert MySQL SQL generator.\n\nRules:\n- Generate ONLY SQL code, no explanations in the query\n- Use ONLY the schemas provided below\n- Use MySQL syntax\n- For multi-table queries, use JOIN, UNION, or subqueries as appropriate\n- Do NOT add LIMIT unless explicitly requested\n- Do NOT hallucinate columns or tables\n- Generate SELECT queries for read operations\n- Generate INSERT/UPDATE/DELETE only if explicitly requested\n- Warn about destructive operations\n\nAvailable Tables and Schemas:\n"
    ++ schemasText ++ "\n\nQuestion:\n" ++ question
    ++ "\n\nOutput format:\nSQL_QUERY:\n<sql>\n\nBUSINESS_EXPLANATION:\n<explanation>\n\nWARNING:\n<warning if destructive operation>\n"

/-- The table-list normalization of the ask handler (src/server.js
275-276).  `tables` is `none` when the field is absent or falsy,
`some (Sum.inl l)` when it is an array, `some (Sum.inr s)` when it is a
truthy non-array value; `tableLegacy` is `none` when the legacy `table`
field is absent or falsy. -/
def askTableList (tables : Option (List String ⊕ String))
    (tableLegacy : Option String) : List String :=
  match tables with
  | some (Sum.inl l) => l
  | some (Sum.inr s) => [s]
  | none =>
    match tableLegacy with
    | some t => [t]
    | none => []

/-- Outcome of one ask request: an early `res.status(400)` return, a
caught thrown error answered with `res.status(500)`, or the point where
the handler has built the prompt, parsed and classified the model reply,
and hands `sql` to `db.query` (src/server.js 364-366). -/
inductive AskOutcome where
  | badRequest (msg : String)
  | serverError (msg : String)
  | runsQuery (prompt sql explanation warning : String)
deriving DecidableEq

/-- The `/ask` handler up to the `db.query(sql, ...)` call (src/server.js
271-366).  The two external collaborators are passed in: `lookup` is the
awaited result of `getSchema` per table (`Promise.all` over
`tableList.map(getSchema)` preserves order), and `modelReply` is the
content returned by the model call. -/
def askFlow (tables : Option (List String ⊕ String))
    (tableLegacy : Option String) (question : String)
    (lookup : String → List ColumnDescriptor) (modelReply : String) :
    AskOutcome :=
  let tableList := askTableList tables tableLegacy
  if tableList.length = 0 ∨ question = "" then
    .badRequest "At least one table and question required"
  else
    let schemasResults := tableList.map lookup
    match buildSchemasText tableList schemasResults with
    | .error msg => .serverError msg
    | .ok schemasText =>
      let prompt := promptText schemasText question
      let parsed := parseResponse modelReply
      let warning := classifyWarning parsed.sql parsed.warning
      .runsQuery prompt parsed.sql parsed.explanation warning

/-! ## The `/execute` handler (src/server.js 589-616) -/

/-- The `/execute` handler up to the `db.query(sql, ...)` call: the body
fields `sql` and `requireConfirmation` are destructured, only `sql` is
ever used.  The successful value is the SQL text handed to the store; the
response is computed from the store result of that text alone.
`requireConfirmation` may hold a value of any type, as in JavaScript. -/
def executeFlow {β : Type} (sql : String) (requireConfirmation : β) :
    Except String String :=
  if sql = "" then .error "SQL query required"
  else .ok sql

/-! ## Identifier substitution of the store driver -/

/-- Modelled from the spec: the identifier-substitution mechanism of the
external store driver (§4.5, the `mysql2` placeholder expansion is not part
of this repository).  Each `??` consumes the next parameter and is replaced
by that identifier; each single `?` consumes the next parameter and remains
a value placeholder.  Backtick-quoting of identifiers is omitted: this is
the reading most favourable to the plain-text statement shapes of §8. -/
def renderIdents {α : Type} : List Char → List (String ⊕ α) → List Char
  | [], _ => []
  | '?' :: '?' :: rest, ps =>
    match ps with
    | Sum.inl s :: ps2 => s.data ++ renderIdents rest ps2
    | Sum.inr _ :: ps2 => '?' :: '?' :: renderIdents rest ps2
    | [] => '?' :: '?' :: renderIdents rest ([] : List (String ⊕ α))
  | '?' :: rest, ps =>
    match ps with
    | _ :: ps2 => '?' :: renderIdents rest ps2
    | [] => '?' :: renderIdents rest ([] : List (String ⊕ α))
  | c :: rest, ps => c :: renderIdents rest ps

/-- Statement text after identifier substitution. -/
def renderedSql {α : Type} (sql : String) (ps : List (String ⊕ α)) : String :=
  String.mk (renderIdents sql.data ps)

/-- A JSON numeric literal exactly as written in a request body: mantissa
and decimal shift, so `9.5` is `⟨95, 1⟩`.  Data values are opaque to the
builder; this type only gives the concrete scenarios their literals. -/
structure JsonNumber where
  mantissa : Int
  shift : Nat
deriving DecidableEq

instance : OfScientific JsonNumber :=
  ⟨fun m b e => if b then ⟨Int.ofNat m, e⟩ else ⟨Int.ofNat (m * 10 ^ e), 0⟩⟩

instance (n : Nat) : OfNat JsonNumber n := ⟨⟨Int.ofNat n, 0⟩⟩

/-- The SQL text a `/crud` build produces, as a function of the operation,
table name, filter text and the keys of the data mapping only: helper used
to show the text never depends on the data values. -/
def crudSqlShape (op t w : String) (keys : List String) : Option String :=
  if op = "" ∨ t = "" then none
  else if jsToUpper op = "INSERT" then
    if keys.length = 0 then none
    else some ("INSERT INTO ?? (" ++ jsJoin "," (keys.map fun _ => "??")
      ++ ") VALUES (" ++ jsJoin "," (keys.map fun _ => "?") ++ ")")
  else if jsToUpper op = "UPDATE" then
    if keys.length = 0 then none
    else if w = "" then none
    else some ("UPDATE ?? SET " ++ jsJoin ", " (keys.map fun _ => "?? = ?")
      ++ " WHERE " ++ w)
  else if jsToUpper op = "DELETE" then
    if w = "" then none else some ("DELETE FROM ?? WHERE " ++ w)
  else if jsToUpper op = "TRUNCATE" then some "TRUNCATE TABLE ??"
  else if jsToUpper op = "DROP" then some "DROP TABLE IF EXISTS ??"
  else none

/-! ## Helper lemmas about the string layer -/

theorem leadsWith_iff (l : List Char) : ∀ s, leadsWith l s = true ↔ l <+: s := by
  induction l with
  | nil => intro s; simp [leadsWith]
  | cons a as ih =>
    intro s
    cases s with
    | nil => simp [leadsWith]
    | cons b bs => simp [leadsWith, List.cons_prefix_cons, ih]

theorem containsL_iff (n : List Char) : ∀ h, containsL n h = true ↔ n <:+: h := by
  intro h
  induction h with
  | nil => simp [containsL, List.isEmpty_iff]
  | cons c cs ih => simp [containsL, leadsWith_iff, ih, List.infix_cons_iff]

theorem splitGo_no_occ (sep : List Char) :
    ∀ (fuel : Nat) (acc rest : List Char), containsL sep rest = false →
      splitGo sep fuel acc rest = [acc.reverse ++ rest] := by
  intro fuel
  induction fuel with
  | zero => intro acc rest _; rfl
  | succ fuel ih =>
    intro acc rest h
    cases rest with
    | nil => simp [splitGo]
    | cons c cs =>
      simp only [containsL, Bool.or_eq_false_iff] at h
      rw [splitGo, if_neg (by simp [h.1])]
      rw [ih (c :: acc) cs h.2]
      simp

theorem jsSplit_no_occ (sep s : String) (hsep : sep.data ≠ [])
    (h : containsL sep.data s.data = false) : jsSplit sep s = [s] := by
  unfold jsSplit
  rw [if_neg hsep, splitGo_no_occ sep.data _ [] s.data h]
  simp

theorem valueParams_nil {α : Type} : valueParams ([] : List (String ⊕ α)) = [] := rfl

theorem valueParams_append {α : Type} (xs ys : List (String ⊕ α)) :
    valueParams (xs ++ ys) = valueParams xs ++ valueParams ys := by
  simp [valueParams, List.filterMap_append]

theorem valueParams_map_inl {α : Type} (l : List String) :
    valueParams (l.map (Sum.inl : String → String ⊕ α)) = [] := by
  induction l with
  | nil => rfl
  | cons a as ih => simp only [valueParams, List.filterMap_cons, List.map_cons] at ih ⊢; exact ih

theorem valueParams_map_inr {α : Type} (l : List α) :
    valueParams (l.map (Sum.inr : α → String ⊕ α)) = l := by
  induction l with
  | nil => rfl
  | cons a as ih => simpa [valueParams, List.filterMap_cons] using ih

theorem valueParams_flatMap_pair {α : Type} (d : List (String × α)) :
    valueParams (d.flatMap fun p => [Sum.inl p.1, Sum.inr p.2]) =
      d.map Prod.snd := by
  induction d with
  | nil => rfl
  | cons a as ih => simp [valueParams, List.filterMap_cons, List.flatMap_cons] at ih ⊢; exact ih

/-! ## Claim theorems -/

/-- C1 counterexample: the table name `bad-name` contains a character
outside `[A-Za-z0-9_]` (it fails the pattern test), yet the `/crud`
builder does not fail with a validation error: it builds a DELETE
statement and issues the store call with that name as identifier
parameter.  The pattern validation exists only on the `/upload` surface. -/
theorem crud_accepts_unsafe_table_name :
    isValidTableName "bad-name" = false ∧
    (crudBuild (α := JsonNumber) "DELETE" "bad-name" none "id = 1").isError
      = false ∧
    crudBuild (α := JsonNumber) "DELETE" "bad-name" none "id = 1" =
      CrudResult.query "DELETE FROM ?? WHERE id = 1" [Sum.inl "bad-name"] := by
  exact ⟨by decide, by decide, by decide⟩

/-- C1 (amended): the `/crud` builder applies no pattern check to the table
name — whether it accepts or fails is unchanged under replacing the table
name by any other non-empty name — while the `[A-Za-z0-9_]+` pattern
validation lives on the `/upload` surface, which rejects every non-matching
name before any store call and lets every matching name proceed. -/
theorem crud_name_unchecked_upload_checked {α : Type}
    (op t t' w : String) (d : Option (List (String × α)))
    (ht : t ≠ "") (ht' : t' ≠ "") :
    ((crudBuild op t d w).isError = (crudBuild op t' d w).isError) ∧
    (∀ s : String, s ≠ "" → isValidTableName s = false →
      uploadPrecheck s true = UploadCheck.invalidName) ∧
    (∀ s : String, isValidTableName s = true →
      uploadPrecheck s true = UploadCheck.proceed) := by
  refine ⟨?_, ?_, ?_⟩
  · by_cases hop : op = ""
    · simp [crudBuild, hop]
    · rcases d with _ | d <;>
        simp only [crudBuild, hop, ht, ht', or_self, false_or, ite_false,
          if_neg, not_false_eq_true] <;>
      split_ifs <;> rfl
  · intro s hs hbad
    simp [uploadPrecheck, hs, hbad]
  · intro s hgood
    have hs : s ≠ "" := by
      intro h0
      rw [h0] at hgood
      exact absurd hgood (by decide)
    simp [uploadPrecheck, hs, hgood]

theorem append_where_shift (a w : String) :
    (a ++ " WHERE ") ++ w = ((a ++ " ") ++ "WHERE ") ++ w := by
  have h : (" WHERE " : String) = " " ++ "WHERE " := by decide
  rw [h, ← String.append_assoc]

theorem valueParams_cons_inl {α : Type} (s : String) (ps : List (String ⊕ α)) :
    valueParams (Sum.inl s :: ps) = valueParams ps := rfl

theorem crudBuild_sqlOf_eq {α : Type} (op t w : String)
    (d : List (String × α)) :
    (crudBuild op t (some d) w).sqlOf = crudSqlShape op t w (d.map Prod.fst) := by
  by_cases hop : op = ""
  · simp [crudBuild, crudSqlShape, hop, CrudResult.sqlOf]
  · by_cases ht : t = ""
    · simp [crudBuild, crudSqlShape, ht, CrudResult.sqlOf]
    · by_cases h1 : jsToUpper op = "INSERT"
      · by_cases hd : d.length = 0 <;>
          simp [crudBuild, crudSqlShape, hop, ht, h1, hd, CrudResult.sqlOf,
            List.map_map, Function.comp_def]
      · by_cases h2 : jsToUpper op = "UPDATE"
        · by_cases hd : d.length = 0
          · simp [crudBuild, crudSqlShape, hop, ht, h1, h2, hd,
              CrudResult.sqlOf]
          · by_cases hw : w = "" <;>
              simp [crudBuild, crudSqlShape, hop, ht, h1, h2, hd, hw,
                CrudResult.sqlOf, List.map_map, Function.comp_def]
        · by_cases h3 : jsToUpper op = "DELETE"
          · by_cases hw : w = "" <;>
              simp [crudBuild, crudSqlShape, hop, ht, h1, h2, h3, hw,
                CrudResult.sqlOf]
          · by_cases h4 : jsToUpper op = "TRUNCATE"
            · simp [crudBuild, crudSqlShape, hop, ht, h1, h2, h3, h4,
                CrudResult.sqlOf]
            · by_cases h5 : jsToUpper op = "DROP" <;>
                simp [crudBuild, crudSqlShape, hop, ht, h1, h2, h3, h4, h5,
                  CrudResult.sqlOf]

/-- C2: in every statement built by the `/crud` builder the caller data
values reach the store only through the positional parameter array — the
SQL text is a function of the data keys alone, and the value-position
parameters are exactly the data values in order — while the caller `where`
text is concatenated verbatim into the text directly after the keyword
`WHERE` for UPDATE and DELETE. -/
theorem crud_values_parameterized_where_raw {α : Type} (op t w : String)
    (d d' : List (String × α)) (hkeys : d.map Prod.fst = d'.map Prod.fst) :
    ((crudBuild op t (some d) w).sqlOf = (crudBuild op t (some d') w).sqlOf) ∧
    (∀ sql ps, crudBuild op t (some d) w = CrudResult.query sql ps →
      valueParams ps =
        (if jsToUpper op = "INSERT" ∨ jsToUpper op = "UPDATE"
         then d.map Prod.snd else []) ∧
      ((jsToUpper op = "UPDATE" ∨ jsToUpper op = "DELETE") →
        ∃ p, sql = p ++ "WHERE " ++ w)) := by
  constructor
  · rw [crudBuild_sqlOf_eq, crudBuild_sqlOf_eq, hkeys]
  · intro sql ps heq
    by_cases hop : op = ""
    · simp [crudBuild, hop] at heq
    · by_cases ht : t = ""
      · simp [crudBuild, ht] at heq
      · by_cases h1 : jsToUpper op = "INSERT"
        · by_cases hd : d.length = 0
          · simp [crudBuild, hop, ht, h1, hd] at heq
          · rw [crudBuild, if_neg (by simp [ht, hop]), if_pos h1,
              if_neg hd] at heq
            obtain ⟨hsql, hps⟩ := (CrudResult.query.injEq _ _ _ _).mp heq.symm
            constructor
            · rw [hps, if_pos (Or.inl h1), valueParams_cons_inl,
                valueParams_append, valueParams_map_inl, valueParams_map_inr]
              simp
            · rintro (hc | hc) <;> (rw [h1] at hc; exact absurd hc (by decide))
        · by_cases h2 : jsToUpper op = "UPDATE"
          · by_cases hd : d.length = 0
            · simp [crudBuild, hop, ht, h1, h2, hd] at heq
            · by_cases hw : w = ""
              · simp [crudBuild, hop, ht, h1, h2, hd, hw] at heq
              · rw [crudBuild, if_neg (by simp [ht, hop]), if_neg h1,
                  if_pos h2, if_neg hd, if_neg hw] at heq
                obtain ⟨hsql, hps⟩ := (CrudResult.query.injEq _ _ _ _).mp heq.symm
                constructor
                · rw [hps, if_pos (Or.inr h2), valueParams_cons_inl,
                    valueParams_flatMap_pair]
                · intro _
                  refine ⟨"UPDATE ?? SET " ++
                    jsJoin ", " (d.map fun _ => "?? = ?") ++ " ", ?_⟩
                  rw [hsql, append_where_shift]
          · by_cases h3 : jsToUpper op = "DELETE"
            · by_cases hw : w = ""
              · simp [crudBuild, hop, ht, h1, h2, h3, hw] at heq
              · rw [crudBuild, if_neg (by simp [ht, hop]), if_neg h1,
                  if_neg h2, if_pos h3, if_neg hw] at heq
                obtain ⟨hsql, hps⟩ := (CrudResult.query.injEq _ _ _ _).mp heq.symm
                constructor
                · rw [hps, if_neg (by simp [h1, h2])]
                  simp [valueParams]
                · intro _
                  refine ⟨"DELETE FROM ?? ", ?_⟩
                  rw [hsql]
                  have h6 : ("DELETE FROM ?? WHERE " : String) =
                      "DELETE FROM ?? " ++ "WHERE " := by decide
                  rw [h6]
            · by_cases h4 : jsToUpper op = "TRUNCATE"
              · rw [crudBuild, if_neg (by simp [ht, hop]), if_neg h1,
                  if_neg h2, if_neg h3, if_pos h4] at heq
                obtain ⟨hsql, hps⟩ := (CrudResult.query.injEq _ _ _ _).mp heq.symm
                constructor
                · rw [hps, if_neg (by simp [h1, h2])]
                  simp [valueParams]
                · rintro (hc | hc) <;>
                    (rw [h4] at hc; exact absurd hc (by decide))
              · by_cases h5 : jsToUpper op = "DROP"
                · rw [crudBuild, if_neg (by simp [ht, hop]), if_neg h1,
                    if_neg h2, if_neg h3, if_neg h4, if_pos h5] at heq
                  obtain ⟨hsql, hps⟩ := (CrudResult.query.injEq _ _ _ _).mp heq.symm
                  constructor
                  · rw [hps, if_neg (by simp [h1, h2])]
                    simp [valueParams]
                  · rintro (hc | hc) <;>
                      (rw [h5] at hc; exact absurd hc (by decide))
                · simp [crudBuild, hop, ht, h1, h2, h3, h4, h5] at heq

/-- C2 witness: two INSERT requests with the same key `a` and different
values build the same SQL text, and the value parameters of the first are
exactly its data values. -/
theorem crud_values_parameterized_where_raw_witness :
    ((crudBuild "INSERT" "t" (some [("a", (1 : JsonNumber))] ) "").sqlOf =
      (crudBuild "INSERT" "t" (some [("a", (9.5 : JsonNumber))]) "").sqlOf) ∧
    (∀ sql ps,
      crudBuild "INSERT" "t" (some [("a", (1 : JsonNumber))]) "" =
        CrudResult.query sql ps →
      valueParams ps =
        (if jsToUpper "INSERT" = "INSERT" ∨ jsToUpper "INSERT" = "UPDATE"
         then [("a", (1 : JsonNumber))].map Prod.snd else []) ∧
      ((jsToUpper "INSERT" = "UPDATE" ∨ jsToUpper "INSERT" = "DELETE") →
        ∃ p, sql = p ++ "WHERE " ++ "")) :=
  crud_values_parameterized_where_raw "INSERT" "t" ""
    [("a", 1)] [("a", 9.5)] (by decide)

/-- C3: a `/crud` request whose operation case-folds to UPDATE or DELETE
and whose `where` field is absent or empty is rejected with a validation
error; no statement reaches the store. -/
theorem crud_update_delete_require_where {α : Type} (op t : String)
    (d : Option (List (String × α)))
    (hop : jsToUpper op = "UPDATE" ∨ jsToUpper op = "DELETE") :
    (crudBuild op t d "").isError = true := by
  have hop0 : op ≠ "" := by
    rintro rfl
    rcases hop with h | h <;> exact absurd h (by decide)
  rcases d with _ | d
  · rcases hop with h | h <;> by_cases ht : t = "" <;>
      simp [crudBuild, hop0, ht, h, CrudResult.isError]
  · rcases hop with h | h <;> by_cases ht : t = "" <;>
      by_cases hd : d.length = 0 <;>
      simp [crudBuild, hop0, ht, h, hd, CrudResult.isError]

/-- C3 witness: the concrete request `{operation: "update", tableName:
"orders", data: {id: 1}}` with no `where` is rejected. -/
theorem crud_update_delete_require_where_witness :
    (crudBuild (α := JsonNumber) "update" "orders" (some [("id", 1)]) "").isError
      = true :=
  crud_update_delete_require_where "update" "orders" (some [("id", 1)])
    (by decide)

/-- C1 witness: instantiating the amended theorem at the DROP operation and
two concrete non-empty table names. -/
theorem crud_name_unchecked_upload_checked_witness :
    ((crudBuild (α := JsonNumber) "DROP" "a" none "").isError =
      (crudBuild (α := JsonNumber) "DROP" "b" none "").isError) ∧
    (∀ s : String, s ≠ "" → isValidTableName s = false →
      uploadPrecheck s true = UploadCheck.invalidName) ∧
    (∀ s : String, isValidTableName s = true →
      uploadPrecheck s true = UploadCheck.proceed) :=
  crud_name_unchecked_upload_checked "DROP" "a" "b" "" none
    (by decide) (by decide)

/-- C7 counterexample: the builder emits the template
`INSERT INTO ?? (??,??) VALUES (?,?)` whose columns and placeholders are
joined by bare commas, so neither the template nor its
identifier-substituted form equals the statement text
`INSERT INTO orders (id, total) VALUES (?, ?)` stated by the claim (the
claim writes a space after each comma). -/
theorem crud_insert_scenario_spacing :
    renderedSql "INSERT INTO ?? (??,??) VALUES (?,?)"
        [Sum.inl "orders", Sum.inl "id", Sum.inl "total",
         Sum.inr (1 : JsonNumber), Sum.inr 9.5]
      ≠ "INSERT INTO orders (id, total) VALUES (?, ?)" ∧
    (crudBuild (α := JsonNumber) "INSERT" "orders"
        (some [("id", 1), ("total", 9.5)]) "").sqlOf
      ≠ some "INSERT INTO orders (id, total) VALUES (?, ?)" := by
  exact ⟨by decide, by decide⟩

/-- C7 (amended): the INSERT request `{operation: "INSERT", tableName:
"orders", data: {id: 1, total: 9.5}}` builds the template
`INSERT INTO ?? (??,??) VALUES (?,?)` with parameter array
`[orders, id, total, 1, 9.5]`; after identifier substitution the statement
reads `INSERT INTO orders (id,total) VALUES (?,?)` (no space after the
commas), its column list is exactly the data keys in order, and its value
placeholders bind exactly the data values `[1, 9.5]` in order. -/
theorem crud_insert_scenario :
    crudBuild (α := JsonNumber) "INSERT" "orders"
        (some [("id", 1), ("total", 9.5)]) "" =
      CrudResult.query "INSERT INTO ?? (??,??) VALUES (?,?)"
        [Sum.inl "orders", Sum.inl "id", Sum.inl "total",
         Sum.inr 1, Sum.inr 9.5] ∧
    renderedSql "INSERT INTO ?? (??,??) VALUES (?,?)"
        [Sum.inl "orders", Sum.inl "id", Sum.inl "total",
         Sum.inr (1 : JsonNumber), Sum.inr 9.5]
      = "INSERT INTO orders (id,total) VALUES (?,?)" ∧
    valueParams [Sum.inl "orders", Sum.inl "id", Sum.inl "total",
        Sum.inr (1 : JsonNumber), Sum.inr 9.5] = [1, 9.5] := by
  exact ⟨by decide, by decide, by decide⟩

/-- C8: the well-formed model reply splits into `sql = "SELECT 1"`,
`explanation = "ok"` and `warning = ""`. -/
theorem parse_wellformed_reply :
    parseResponse "SQL_QUERY:\nSELECT 1\n\nBUSINESS_EXPLANATION:\nok\n\nWARNING:\n"
      = { sql := "SELECT 1", explanation := "ok", warning := "" } := by
  decide

/-- C9: the `/execute` handler reads `requireConfirmation` but never uses
it — two requests identical except in that field (of any two types of
values) take the same early-return-or-execute path and hand the same SQL
to the store, hence produce the same response. -/
theorem execute_ignores_requireConfirmation {β γ : Type} (sql : String)
    (rc : β) (rc' : γ) : executeFlow sql rc = executeFlow sql rc' := rfl

/-- C4 counterexample: on the reply `"SQL_QUERY:\nSELECT 1"` the
`BUSINESS_EXPLANATION:` marker is absent (it is not a substring of the
reply), and parsing returns the fallback text `"No explanation provided"`
for the explanation field — not the empty string the claim asserts for
every missing marker. -/
theorem parse_missing_explanation_not_empty :
    ¬ ("BUSINESS_EXPLANATION:".data <:+: ("SQL_QUERY:\nSELECT 1").data) ∧
    (parseResponse "SQL_QUERY:\nSELECT 1").explanation
      = "No explanation provided" ∧
    (parseResponse "SQL_QUERY:\nSELECT 1").explanation ≠ "" := by
  exact ⟨by decide, by decide, by decide⟩

/-- C4 (amended): parsing is total (it is a function and never fails);
when the `SQL_QUERY:` marker is missing from the reply the `sql` field is
the empty string, when the `WARNING:` marker is missing the `warning`
field is the empty string, and when the `BUSINESS_EXPLANATION:` marker is
missing the `explanation` field is the fallback text
`"No explanation provided"` rather than the empty string. -/
theorem parse_missing_marker_defaults (content : String) :
    (¬ ("SQL_QUERY:".data <:+: content.data) →
      (parseResponse content).sql = "") ∧
    (¬ ("WARNING:".data <:+: content.data) →
      (parseResponse content).warning = "") ∧
    (¬ ("BUSINESS_EXPLANATION:".data <:+: content.data) →
      (parseResponse content).explanation = "No explanation provided") := by
  refine ⟨?_, ?_, ?_⟩
  · intro h
    have hc : containsL ("SQL_QUERY:").data content.data = false := by
      rw [← Bool.not_eq_true]
      intro hb
      exact h ((containsL_iff _ _).mp hb)
    have hs : jsSplit "SQL_QUERY:" content = [content] :=
      jsSplit_no_occ _ _ (by decide) hc
    simp only [parseResponse, hs, List.get?_cons_succ, List.get?_nil,
      Option.map_none, jsOrDefault]
    decide
  · intro h
    have hc : containsL ("WARNING:").data content.data = false := by
      rw [← Bool.not_eq_true]
      intro hb
      exact h ((containsL_iff _ _).mp hb)
    have hs : jsSplit "WARNING:" content = [content] :=
      jsSplit_no_occ _ _ (by decide) hc
    simp [parseResponse, hs, jsOrDefault]
  · intro h
    have hc : containsL ("BUSINESS_EXPLANATION:").data content.data = false := by
      rw [← Bool.not_eq_true]
      intro hb
      exact h ((containsL_iff _ _).mp hb)
    have hs : jsSplit "BUSINESS_EXPLANATION:" content = [content] :=
      jsSplit_no_occ _ _ (by decide) hc
    simp [parseResponse, hs, jsOrDefault]

/-- C4 witness: the amended theorem applied to the reply `"hello"`, which
contains none of the three markers. -/
theorem parse_missing_marker_defaults_witness :
    (parseResponse "hello").sql = "" ∧
    (parseResponse "hello").warning = "" ∧
    (parseResponse "hello").explanation = "No explanation provided" :=
  ⟨(parse_missing_marker_defaults "hello").1 (by decide),
   (parse_missing_marker_defaults "hello").2.1 (by decide),
   (parse_missing_marker_defaults "hello").2.2 (by decide)⟩

/-- C5: the classifier flags SQL as destructive exactly when its
case-folded text contains one of the substrings `delete`, `drop`,
`truncate`, `update`; when flagged and the prior warning is empty it
attaches the one fixed cautionary message, and in every other case the
warning is returned unchanged. -/
theorem classifier_keyword_match (sql warning : String) :
    (isDestructive sql = true ↔
      ∃ k ∈ ["delete", "drop", "truncate", "update"],
        k.data <:+: (jsToLower sql).data) ∧
    (isDestructive sql = true → warning = "" →
      classifyWarning sql warning = destructiveWarning) ∧
    (isDestructive sql = false ∨ warning ≠ "" →
      classifyWarning sql warning = warning) := by
  refine ⟨?_, ?_, ?_⟩
  · simp only [isDestructive, jsIncludes, Bool.or_eq_true, containsL_iff]
    constructor
    · rintro (((h | h) | h) | h)
      · exact ⟨"delete", by simp, h⟩
      · exact ⟨"drop", by simp, h⟩
      · exact ⟨"truncate", by simp, h⟩
      · exact ⟨"update", by simp, h⟩
    · rintro ⟨k, hk, hinf⟩
      simp only [List.mem_cons, List.not_mem_nil, or_false] at hk
      rcases hk with rfl | rfl | rfl | rfl
      · exact Or.inl (Or.inl (Or.inl hinf))
      · exact Or.inl (Or.inl (Or.inr hinf))
      · exact Or.inl (Or.inr hinf)
      · exact Or.inr hinf
  · intro h hw
    simp [classifyWarning, h, hw]
  · rintro (h | h) <;> simp [classifyWarning, h]

/-- C5 witness: `"DROP TABLE x"` is flagged and receives the fixed message
when no prior warning exists; a plain SELECT with a prior warning keeps
it. -/
theorem classifier_keyword_match_witness :
    classifyWarning "DROP TABLE x" "" = destructiveWarning ∧
    classifyWarning "SELECT 1" "keep" = "keep" :=
  ⟨(classifier_keyword_match "DROP TABLE x" "").2.1 (by decide) rfl,
   (classifier_keyword_match "SELECT 1" "keep").2.2 (Or.inl (by decide))⟩

theorem buildSchemasList_error_of_empty
    (lookup : String → List ColumnDescriptor) :
    ∀ (ts : List String) (t : String), t ∈ ts → lookup t = [] →
      ∃ u ∈ ts, lookup u = [] ∧
        buildSchemasList ts (ts.map lookup) =
          .error ("Table " ++ sq ++ u ++ sq ++ " not found") := by
  intro ts
  induction ts with
  | nil => intro t hmem _; exact absurd hmem (List.not_mem_nil t)
  | cons a rest ih =>
    intro t hmem hempty
    by_cases ha : lookup a = []
    · refine ⟨a, List.mem_cons_self a rest, ha, ?_⟩
      simp [buildSchemasList, ha]
    · rcases List.mem_cons.mp hmem with rfl | hmem2
      · exact absurd hempty ha
      · obtain ⟨u, hu1, hu2, hu3⟩ := ih t hmem2 hempty
        refine ⟨u, List.mem_cons_of_mem a hu1, hu2, ?_⟩
        have hlen : (lookup a).length ≠ 0 := by
          simpa [List.length_eq_zero] using ha
        simp [buildSchemasList, hlen, hu3, Except.map]

/-- C6: within one ask request, if the schema lookup of any named table in
the normalized table list comes back empty, the whole request ends with a
500 `Table not found` server error — no prompt is built, nothing
is parsed, and no SQL is handed to the store. -/
theorem ask_missing_table_aborts (tables : Option (List String ⊕ String))
    (tableLegacy : Option String) (question : String)
    (lookup : String → List ColumnDescriptor) (modelReply : String)
    (t : String) (hq : question ≠ "")
    (hmem : t ∈ askTableList tables tableLegacy) (hempty : lookup t = []) :
    ∃ u ∈ askTableList tables tableLegacy, lookup u = [] ∧
      askFlow tables tableLegacy question lookup modelReply =
        AskOutcome.serverError ("Table " ++ sq ++ u ++ sq ++ " not found") := by
  obtain ⟨u, hu1, hu2, hu3⟩ :=
    buildSchemasList_error_of_empty lookup (askTableList tables tableLegacy)
      t hmem hempty
  refine ⟨u, hu1, hu2, ?_⟩
  have hne : ¬((askTableList tables tableLegacy).length = 0 ∨ question = "") := by
    rintro (h0 | h0)
    · rw [List.length_eq_zero] at h0
      rw [h0] at hmem
      exact absurd hmem (List.not_mem_nil t)
    · exact hq h0
  rw [askFlow, if_neg hne]
  have hb : buildSchemasText (askTableList tables tableLegacy)
      ((askTableList tables tableLegacy).map lookup) =
      .error ("Table " ++ sq ++ u ++ sq ++ " not found") := by
    rw [buildSchemasText, hu3]
    rfl
  simp only [hb]

/-- C6 witness: the request naming tables `a` and `b` against a store
where only `a` exists aborts with the `Table not found` error. -/
theorem ask_missing_table_aborts_witness :
    ∃ u ∈ askTableList (some (Sum.inl ["a", "b"])) none,
      (fun t => if t = "a" then [(⟨"x", "int"⟩ : ColumnDescriptor)] else []) u
        = [] ∧
      askFlow (some (Sum.inl ["a", "b"])) none "show rows"
          (fun t => if t = "a" then [(⟨"x", "int"⟩ : ColumnDescriptor)] else [])
          "SQL_QUERY:\nSELECT 1" =
        AskOutcome.serverError ("Table " ++ sq ++ u ++ sq ++ " not found") :=
  ask_missing_table_aborts (some (Sum.inl ["a", "b"])) none "show rows"
    (fun t => if t = "a" then [(⟨"x", "int"⟩ : ColumnDescriptor)] else [])
    "SQL_QUERY:\nSELECT 1" "b" (by decide) (by decide) (by decide)

/-- C10: the ask handler normalizes its table input before anything else —
an array `tables` value is used as is, a truthy non-array `tables` value is
wrapped into a one-element list, and with `tables` absent a truthy legacy
`table` field is accepted as a one-element list — and the request is
answered with the 400 validation error exactly when the normalized list is
empty or the question is absent (falsy). -/
theorem ask_normalization (tables : Option (List String ⊕ String))
    (tableLegacy : Option String) (question : String)
    (lookup : String → List ColumnDescriptor) (modelReply : String) :
    (∀ l, tables = some (Sum.inl l) →
      askTableList tables tableLegacy = l) ∧
    (∀ s, tables = some (Sum.inr s) →
      askTableList tables tableLegacy = [s]) ∧
    (∀ t, tables = none → tableLegacy = some t →
      askTableList tables tableLegacy = [t]) ∧
    ((∃ msg, askFlow tables tableLegacy question lookup modelReply =
        AskOutcome.badRequest msg) ↔
      (askTableList tables tableLegacy = [] ∨ question = "")) := by
  refine ⟨?_, ?_, ?_, ?_⟩
  · rintro l rfl; rfl
  · rintro s rfl; rfl
  · rintro t rfl rfl; rfl
  · constructor
    · rintro ⟨msg, hmsg⟩
      by_contra hnot
      push_neg at hnot
      have hc : ¬((askTableList tables tableLegacy).length = 0 ∨
          question = "") := by
        rintro (h0 | h0)
        · exact hnot.1 (List.length_eq_zero.mp h0)
        · exact hnot.2 h0
      rw [askFlow, if_neg hc] at hmsg
      rcases hb : buildSchemasText (askTableList tables tableLegacy)
          ((askTableList tables tableLegacy).map lookup) with m | st
      · simp [hb] at hmsg
      · simp [hb] at hmsg
    · intro h
      have hc : (askTableList tables tableLegacy).length = 0 ∨
          question = "" := by
        rcases h with h | h
        · exact Or.inl (by rw [h]; rfl)
        · exact Or.inr h
      exact ⟨_, by rw [askFlow, if_pos hc]⟩

/-- C10 witness: a scalar `tables` value is wrapped, the legacy field is
accepted, and an empty array is rejected with the validation error. -/
theorem ask_normalization_witness :
    askTableList (some (Sum.inr "users")) none = ["users"] ∧
    askTableList (none : Option (List String ⊕ String)) (some "legacy")
      = ["legacy"] ∧
    (∃ msg, askFlow (some (Sum.inl ([] : List String))) none "q"
        (fun _ => []) "" = AskOutcome.badRequest msg) :=
  ⟨(ask_normalization (some (Sum.inr "users")) none "q" (fun _ => []) "").2.1
      "users" rfl,
   (ask_normalization none (some "legacy") "q" (fun _ => []) "").2.2.1
      "legacy" rfl rfl,
   (ask_normalization (some (Sum.inl [])) none "q" (fun _ => []) "").2.2.2.mpr
      (Or.inl rfl)⟩

end SqlBackend
